import Mathlib

/-!
Verification of the event-queue / select multiplexer core of src/android.c.

The embedding has three parts:

1. `EventQueueState` / `stepQ`: a small-step interleaving model of the global
   event queue (`struct android_event_queue`, android.c lines 154-209) and of
   the three code regions that operate on it under `event_queue.mutex`:
   `android_write_event` (lines 376-401), `android_next_event` (lines 344-374)
   and the tail of the select-thread loop (lines 261-264).  Each transition of
   `stepQ` is one critical section (code executed between acquiring and
   releasing `event_queue.mutex`, or between acquiring the mutex and entering
   `pthread_cond_wait`, or between returning from `pthread_cond_wait` and
   releasing the mutex).  The circular doubly-linked list rooted at the
   sentinel `event_queue.events` is represented by the list of its live nodes
   in `next`-order: `android_write_event` inserts at `events.next` (the front
   of the list, lines 393-396) and `android_next_event` removes `events.last`
   (the back of the list, line 358).  `pthread_cond_signal` wakes at most one
   sleeping thread; a woken thread re-acquires the mutex in a separate, later
   transition, so other threads may run in between (POSIX semantics).

2. `android_run_select_thread_body`: the sequence of observable steps of one
   iteration of the select-thread loop (lines 246-264), used for the temporal
   ordering claim about `android_pselect_rc`, `sem_post` and the queue mutex.

3. `SelectState` / `android_select`: the consumer-facing `android_select`
   (lines 403-455) as a state transformer.  The behaviour of the other
   threads while the consumer is blocked in `pthread_cond_wait` (line 431)
   and `sem_wait` (line 438) is abstracted by a `WaitBehavior`: the events
   enqueued during the wait and the value the select thread stores into
   `android_pselect_rc` (line 253).  Machine `int` values are modelled as
   `Int`; pointers passed for the descriptor sets are modelled as opaque
   numeric identities, since `android_select` only stores them.
-/

namespace AndroidEmacs

/-- The two condition variables of `struct android_event_queue`
(android.c lines 180-184). -/
inductive CondVar where
  | readVar
  | writeVar
deriving DecidableEq

/-- State of the global `event_queue` together with the scheduling state of
the threads blocked on its condition variables, and ghost fields recording
the history of inserts, removals and `pthread_cond_signal` calls.
`E` is the type of `union android_event` payloads (opaque plain data). -/
structure EventQueueState (E : Type) where
  /-- Live nodes of the circular queue in `next`-order: head of the list is
  `event_queue.events.next` (the most recently inserted node), the last
  element is `event_queue.events.last` (the node removed next). -/
  queue : List E
  /-- The `num_events` counter (line 188). -/
  numEvents : Nat
  /-- Events held by producers sleeping in the `pthread_cond_wait` on
  `write_var` at lines 390-391 (queue was full when they entered). -/
  waitingWriters : List E
  /-- Events held by producers that have been woken by a signal on
  `write_var` but have not yet re-acquired the mutex.  On resumption they
  insert unconditionally: line 389 is an `if`, not a `while`. -/
  readyWriters : List E
  /-- The consumer is sleeping in the `pthread_cond_wait` on `read_var` at
  lines 354-355 inside `android_next_event`. -/
  readerWaiting : Bool
  /-- The consumer has been woken by a signal on `read_var` but has not yet
  re-acquired the mutex; on resumption it proceeds straight to the removal
  at line 358: line 353 is an `if`, not a `while`. -/
  readerReady : Bool
  /-- A descriptor wait has been armed by `android_select` (SIGUSR2 sent,
  line 430) and the select thread has not yet executed lines 261-264. -/
  selectPending : Bool
  /-- The `android_pselect_completed` flag (line 206). -/
  pselectCompleted : Bool
  /-- Ghost: events inserted into the queue, in insertion order. -/
  inserted : List E
  /-- Ghost: events removed from the queue, in removal order. -/
  dequeued : List E
  /-- Ghost: every `pthread_cond_signal` call, in order. -/
  sigTrace : List CondVar
  /-- The assertion `container != &event_queue.events` at line 359 has
  fired: the removal at lines 358-369 was reached with an empty queue, so
  `container` is the sentinel node itself. -/
  assertionFailed : Bool

/-- The queue right after `android_init_events` (lines 310-311): the
sentinel points at itself, no events, nobody waiting. -/
def initQueue (E : Type) : EventQueueState E :=
  ⟨[], 0, [], [], false, false, false, false, [], [], [], false⟩

/-- Model of `pthread_cond_signal (&event_queue.read_var)`: wakes the consumer if it
is sleeping on `read_var`; a signal with no sleeper is a no-op apart from
the ghost trace. -/
def signalReadVar {E : Type} (s : EventQueueState E) : EventQueueState E :=
  { s with readerReady := s.readerReady || s.readerWaiting,
           readerWaiting := false,
           sigTrace := s.sigTrace ++ [CondVar.readVar] }

/-- Model of `pthread_cond_signal (&event_queue.write_var)` (line 372): wakes at
most one producer sleeping on `write_var`. -/
def signalWriteVar {E : Type} (s : EventQueueState E) : EventQueueState E :=
  match s.waitingWriters with
  | [] => { s with sigTrace := s.sigTrace ++ [CondVar.writeVar] }
  | e :: rest =>
      { s with waitingWriters := rest,
               readyWriters := s.readyWriters ++ [e],
               sigTrace := s.sigTrace ++ [CondVar.writeVar] }

/-- Lines 393-399 of `android_write_event`: link the new container in at
`event_queue.events.next`, copy the event, increment `num_events`, and
signal `read_var`. -/
def insertEvent {E : Type} (e : E) (s : EventQueueState E) : EventQueueState E :=
  signalReadVar
    { s with queue := e :: s.queue,
             numEvents := s.numEvents + 1,
             inserted := s.inserted ++ [e] }

/-- Lines 357-372 of `android_next_event`: take `container =
event_queue.events.last`, assert it is not the sentinel, unlink it,
decrement `num_events`, free it and signal `write_var`.  When the queue is
empty `events.last` is the sentinel itself and the `eassert` at line 359
fires. -/
def removeEvent {E : Type} (s : EventQueueState E) : EventQueueState E :=
  match s.queue.getLast? with
  | none => { s with assertionFailed := true }
  | some e =>
      signalWriteVar
        { s with queue := s.queue.dropLast,
                 numEvents := s.numEvents - 1,
                 dequeued := s.dequeued ++ [e] }

/-- The function `android_write_event` (lines 376-401).  `allocOk` tells whether the
`malloc` at line 381 succeeded; on failure the function returns at line 384
before taking the mutex.  With the mutex held: if `num_events >= 1024` the
producer goes to sleep on `write_var` (lines 389-391; the insertion then
happens in a later `writerResume` transition), otherwise it inserts
immediately. -/
def android_write_event {E : Type} (allocOk : Bool) (e : E)
    (s : EventQueueState E) : EventQueueState E :=
  if allocOk = false then s
  else if s.numEvents ≥ 1024 then
    { s with waitingWriters := s.waitingWriters ++ [e] }
  else insertEvent e s

/-- The critical section entered by `android_next_event` (lines 349-355):
with the mutex held, if `num_events` is zero the consumer sleeps on
`read_var` (the removal then happens in a later `readerResume` transition),
otherwise it removes the last node immediately. -/
def android_next_event {E : Type} (s : EventQueueState E) : EventQueueState E :=
  if s.numEvents = 0 then { s with readerWaiting := true }
  else removeEvent s

/-- One interleaving step of the threads touching `event_queue`. -/
inductive QAct (E : Type) where
  /-- A producer runs `android_write_event` with a successful allocation. -/
  | write (e : E)
  /-- A producer runs `android_write_event` and the `malloc` at line 381
  returns NULL. -/
  | writeAllocFail (e : E)
  /-- A producer woken from the `pthread_cond_wait` at lines 390-391
  re-acquires the mutex and finishes `android_write_event`: it inserts
  unconditionally, without re-checking `num_events` (line 389 is an `if`). -/
  | writerResume
  /-- The consumer enters `android_next_event`. -/
  | next
  /-- The consumer, woken from the `pthread_cond_wait` at lines 354-355,
  re-acquires the mutex and proceeds to the removal at line 358 without
  re-checking `num_events` (line 353 is an `if`). -/
  | readerResume
  /-- The consumer, inside `android_select` with an empty queue, arms a descriptor wait:
  it stores the wait request and sends SIGUSR2 (lines 418-430). -/
  | selectArm
  /-- The select thread finishes a wait cycle and executes lines 261-264:
  locks the mutex, sets `android_pselect_completed`, signals `read_var`,
  unlocks. -/
  | selectDone

/-- One transition.  Once the `eassert` at line 359 has fired the process
has aborted, so every further step is a no-op. -/
def stepQ {E : Type} (s : EventQueueState E) : QAct E → EventQueueState E
  | QAct.write e =>
      if s.assertionFailed then s else android_write_event true e s
  | QAct.writeAllocFail e =>
      if s.assertionFailed then s else android_write_event false e s
  | QAct.writerResume =>
      if s.assertionFailed then s
      else
        match s.readyWriters with
        | [] => s
        | e :: rest => insertEvent e { s with readyWriters := rest }
  | QAct.next =>
      if s.assertionFailed then s
      else if s.readerWaiting || s.readerReady then s
      else android_next_event s
  | QAct.readerResume =>
      if s.assertionFailed then s
      else if s.readerReady then removeEvent { s with readerReady := false }
      else s
  | QAct.selectArm =>
      if s.assertionFailed then s
      else if s.selectPending || s.readerWaiting || s.readerReady
          || !(s.numEvents = 0) then s
      else { s with selectPending := true }
  | QAct.selectDone =>
      if s.assertionFailed then s
      else if s.selectPending then
        signalReadVar { s with selectPending := false,
                               pselectCompleted := true }
      else s

/-- Run a sequence of interleaving steps. -/
def runQ {E : Type} (s : EventQueueState E) (acts : List (QAct E)) :
    EventQueueState E :=
  acts.foldl stepQ s

/-! ### The select-thread loop body (lines 238-265) -/

/-- The observable steps of one iteration of `android_run_select_thread`
after `sigwait` returns (lines 246-264), in program order. -/
inductive ProxyStep where
  /-- Step `pthread_mutex_lock (&event_queue.select_mutex)` (line 246). -/
  | lockSelectMutex
  /-- the `pselect` call (lines 247-252). -/
  | callPselect
  /-- Step `android_pselect_rc = rc` (line 253). -/
  | storeRc
  /-- Step `pthread_mutex_unlock (&event_queue.select_mutex)` (line 254). -/
  | unlockSelectMutex
  /-- Step `sem_post (&android_pselect_sem)` (line 259). -/
  | semPost
  /-- Step `pthread_mutex_lock (&event_queue.mutex)` (line 261). -/
  | lockQueueMutex
  /-- Step `android_pselect_completed = true` (line 262). -/
  | setCompleted
  /-- Step `pthread_cond_signal (&event_queue.read_var)` (line 263). -/
  | signalReadVar
  /-- Step `pthread_mutex_unlock (&event_queue.mutex)` (line 264). -/
  | unlockQueueMutex
deriving DecidableEq

/-- One iteration of the `while (true)` loop of
`android_run_select_thread`, transcribed step by step from lines 246-264. -/
def android_run_select_thread_body : List ProxyStep :=
  [ProxyStep.lockSelectMutex, ProxyStep.callPselect, ProxyStep.storeRc,
   ProxyStep.unlockSelectMutex, ProxyStep.semPost, ProxyStep.lockQueueMutex,
   ProxyStep.setCompleted, ProxyStep.signalReadVar,
   ProxyStep.unlockQueueMutex]

/-! ### `android_select` (lines 403-455) -/

/-- The arguments of one `android_select` call.  `nfds` is the descriptor
count; the descriptor-set, timeout and sigset pointers are modelled by
opaque numeric identities, since `android_select` only stores them into the
`android_pselect_*` globals (lines 422-427). -/
structure SelectArgs where
  nfds : Int
  readfds : Nat
  writefds : Nat
  exceptfds : Nat
  timeout : Nat
  sigset : Nat
deriving DecidableEq

/-- What the other threads do while the consumer is blocked inside
`android_select`, between the `pthread_cond_wait` at line 431 and the
return of `sem_wait` at line 438: `arrivals` are the events enqueued by
producers during that window (in enqueue order), and `rc` is the value the
select thread stores into `android_pselect_rc` at line 253 (the raw
`pselect` return, possibly negative, e.g. after the SIGUSR1 interrupt sent
at line 435). -/
structure WaitBehavior (E : Type) where
  arrivals : List E
  rc : Int

/-- The global state read and written by `android_select`: the
`android_pselect_*` request slots (lines 195-200), the completion flag
(line 206), the stored result (line 203), the semaphore counter
(line 212) and the event queue (`next`-order list plus `num_events`, as in
`EventQueueState`). -/
structure SelectState (E : Type) where
  android_pselect_nfds : Int
  android_pselect_readfds : Nat
  android_pselect_writefds : Nat
  android_pselect_exceptfds : Nat
  android_pselect_timeout : Nat
  android_pselect_sigset : Nat
  android_pselect_completed : Bool
  android_pselect_rc : Int
  semCount : Nat
  queue : List E
  numEvents : Nat
deriving DecidableEq

/-- The two signals `android_select` may send to the select thread
(lines 430 and 435). -/
inductive UnixSignal where
  | sigusr1
  | sigusr2
deriving DecidableEq

/-- The function `android_select` (lines 403-455) as a state transformer, returning
`nfds_return`, the final state, and the signals sent to the select thread.

Lines 410-416: with the queue mutex held, if `num_events` is nonzero,
unlock and return 1 at once — nothing else is touched and no signal is
sent.

Otherwise (lines 418-449): set `nfds_return = 0`, clear
`android_pselect_completed`, store the six request slots under
`select_mutex`, send SIGUSR2, and block in `pthread_cond_wait` on
`read_var`.  While the consumer is blocked, producers enqueue
`b.arrivals` (each insertion conses at `events.next` and increments
`num_events`) and the select thread stores `b.rc` into
`android_pselect_rc` (line 253) and posts the semaphore (line 259); the
consumer sends SIGUSR1 (line 435) and passes `sem_wait` (line 438), so the
post and the wait cancel and `semCount` is back to its entry value by the
time `android_select` returns.  The select thread sets
`android_pselect_completed` at line 262 (its lines 261-264 run under the
queue mutex, before the consumer re-acquires it when `pthread_cond_wait`
returns, whenever the wakeup came from the select thread; the flag value
does not feed into `nfds_return`).  Lines 440-449 then fuse the results:
`nfds_return = 1` if `num_events` is nonzero, plus `android_pselect_rc` if
that is nonnegative; a negative `android_pselect_rc` is returned verbatim
only when `nfds_return` would otherwise be 0 (the fusion arithmetic of
lines 440-449 is transcribed in `fuseResult`). -/
def fuseResult (numEvents : Nat) (rc : Int) : Int :=
  let n0 : Int := if numEvents ≠ 0 then 1 else 0
  let n1 : Int := if rc ≥ 0 then n0 + rc else n0
  if n1 = 0 ∧ rc < 0 then rc else n1

def android_select {E : Type} (a : SelectArgs) (b : WaitBehavior E)
    (s : SelectState E) : Int × SelectState E × List UnixSignal :=
  if s.numEvents ≠ 0 then (1, s, [])
  else
    let s1 : SelectState E :=
      { s with android_pselect_completed := false,
               android_pselect_nfds := a.nfds,
               android_pselect_readfds := a.readfds,
               android_pselect_writefds := a.writefds,
               android_pselect_exceptfds := a.exceptfds,
               android_pselect_timeout := a.timeout,
               android_pselect_sigset := a.sigset }
    let s2 : SelectState E :=
      { s1 with queue := b.arrivals.foldl (fun q e => e :: q) s1.queue,
                numEvents := s1.numEvents + b.arrivals.length,
                android_pselect_rc := b.rc,
                android_pselect_completed := true }
    (fuseResult s2.numEvents b.rc, s2,
     [UnixSignal.sigusr2, UnixSignal.sigusr1])

/-! ### Derived notions and concrete scenarios -/

/-- The two structural invariants of the queue model: `num_events` counts
the live nodes, and the insertion history equals the removal history
followed by the still-queued nodes in oldest-first order (so the removal
order is the insertion order: strict FIFO). -/
def QueueInv {E : Type} (s : EventQueueState E) : Prop :=
  s.numEvents = s.queue.length ∧
    s.inserted = s.dequeued ++ s.queue.reverse

/-- The queue after `n` uncontended successful enqueues of the event `0`
from the initial state. -/
def fillState (n : Nat) : EventQueueState Nat :=
  ⟨List.replicate n 0, n, [], [], false, false, false, false,
   List.replicate n 0, [], List.replicate n CondVar.readVar, false⟩

/-- An interleaving of two producers and the consumer: 1024 events are
enqueued; producer 1 enqueues while the queue is full and goes to sleep at
lines 390-391; the consumer dequeues one event, signalling `write_var`;
producer 2 enqueues into the freed slot before producer 1 re-acquires the
mutex; producer 1 then resumes and inserts without re-checking
`num_events` (line 389 is an `if`, not a `while`). -/
def overflowTrace : List (QAct Nat) :=
  List.replicate 1024 (QAct.write 0) ++
    [QAct.write 1, QAct.next, QAct.write 2, QAct.writerResume]

/-- An interleaving in which the consumer's `pthread_cond_wait` at
lines 354-355 is woken by the select thread's wait-completed signal
(line 263) and not by an enqueue: `android_select` arms a descriptor wait
on an empty queue; an event arrives and is dequeued; the consumer calls
`android_next_event` again and sleeps; only then does the select thread
run lines 261-264.  The consumer resumes with `num_events == 0` and
proceeds to remove `event_queue.events.last`, which is the sentinel. -/
def sentinelRemovalTrace : List (QAct Nat) :=
  [QAct.selectArm, QAct.write 0, QAct.next, QAct.next, QAct.selectDone,
   QAct.readerResume]

/-- Concrete `android_select` arguments used to instantiate theorems. -/
def argsW : SelectArgs := ⟨3, 10, 11, 12, 13, 14⟩

/-- A `SelectState` with an empty event queue. -/
def emptySelectState : SelectState Nat :=
  ⟨0, 0, 0, 0, 0, 0, false, 0, 0, [], 0⟩

/-- A `SelectState` in which two events (`0` then `1`) have been enqueued:
`j = 2` events are pending when `android_select` is called. -/
def twoEventState : SelectState Nat :=
  ⟨0, 0, 0, 0, 0, 0, false, 0, 0, [1, 0], 2⟩

/-- The state along `overflowTrace` after producer 1 has gone to sleep on
`write_var` with the queue full. -/
def sOver1 : EventQueueState Nat :=
  ⟨List.replicate 1024 0, 1024, [1], [], false, false, false, false,
   List.replicate 1024 0, [], List.replicate 1024 CondVar.readVar, false⟩

/-- The state along `overflowTrace` after the consumer dequeued one event
and woke producer 1. -/
def sOver2 : EventQueueState Nat :=
  ⟨List.replicate 1023 0, 1023, [], [1], false, false, false, false,
   List.replicate 1024 0, [0],
   List.replicate 1024 CondVar.readVar ++ [CondVar.writeVar], false⟩

/-- The state along `overflowTrace` after producer 2 refilled the freed
slot, with producer 1 still about to resume. -/
def sOver3 : EventQueueState Nat :=
  ⟨2 :: List.replicate 1023 0, 1024, [], [1], false, false, false, false,
   List.replicate 1024 0 ++ [2], [0],
   (List.replicate 1024 CondVar.readVar ++ [CondVar.writeVar])
     ++ [CondVar.readVar],
   false⟩

/-! ### Invariant preservation lemmas -/

lemma queueInv_initQueue (E : Type) : QueueInv (initQueue E) :=
  ⟨rfl, rfl⟩

lemma queueInv_signalReadVar {E : Type} {s : EventQueueState E}
    (h : QueueInv s) : QueueInv (signalReadVar s) := h

lemma queueInv_signalWriteVar {E : Type} {s : EventQueueState E}
    (h : QueueInv s) : QueueInv (signalWriteVar s) := by
  unfold signalWriteVar
  cases s.waitingWriters with
  | nil => exact h
  | cons e rest => exact h

lemma queueInv_insertEvent {E : Type} (e : E) {s : EventQueueState E}
    (h : QueueInv s) : QueueInv (insertEvent e s) := by
  obtain ⟨h1, h2⟩ := h
  apply queueInv_signalReadVar
  constructor
  · simp [h1]
  · simp [h2, List.append_assoc]

lemma removeEvent_nil {E : Type} {s : EventQueueState E}
    (hq : s.queue = []) :
    removeEvent s = { s with assertionFailed := true } := by
  unfold removeEvent
  rw [hq]
  rfl

lemma removeEvent_concat {E : Type} {s : EventQueueState E} {q : List E}
    {e : E} (hq : s.queue = q ++ [e]) :
    removeEvent s
      = signalWriteVar
          { s with queue := q, numEvents := s.numEvents - 1,
                   dequeued := s.dequeued ++ [e] } := by
  unfold removeEvent
  rw [hq, List.getLast?_concat, List.dropLast_concat]

lemma queueInv_removeEvent {E : Type} {s : EventQueueState E}
    (h : QueueInv s) : QueueInv (removeEvent s) := by
  obtain ⟨h1, h2⟩ := h
  rcases List.eq_nil_or_concat s.queue with hq | ⟨q, e, hq⟩
  · rw [removeEvent_nil hq]
    exact ⟨h1, h2⟩
  · rw [List.concat_eq_append] at hq
    rw [removeEvent_concat hq]
    apply queueInv_signalWriteVar
    constructor
    · rw [hq] at h1
      simp at h1
      simp [h1]
    · rw [hq] at h2
      simp [List.reverse_concat] at h2
      simp [h2, List.append_assoc]

lemma queueInv_stepQ {E : Type} (a : QAct E) {s : EventQueueState E}
    (h : QueueInv s) : QueueInv (stepQ s a) := by
  cases a with
  | write e =>
      simp only [stepQ, android_write_event]
      split
      · exact h
      split
      · exact h
      split
      · exact h
      · exact queueInv_insertEvent e h
  | writeAllocFail e =>
      simp only [stepQ, android_write_event]
      split
      · exact h
      split
      · exact h
      split
      · exact h
      · exact queueInv_insertEvent e h
  | writerResume =>
      simp only [stepQ]
      split
      · exact h
      split
      · exact h
      · exact queueInv_insertEvent _ h
  | next =>
      simp only [stepQ, android_next_event]
      split
      · exact h
      split
      · exact h
      split
      · exact h
      · exact queueInv_removeEvent h
  | readerResume =>
      simp only [stepQ]
      split
      · exact h
      split
      · exact queueInv_removeEvent h
      · exact h
  | selectArm =>
      simp only [stepQ]
      split
      · exact h
      split
      · exact h
      · exact h
  | selectDone =>
      simp only [stepQ]
      split
      · exact h
      split
      · exact queueInv_signalReadVar h
      · exact h

lemma runQ_append {E : Type} (s : EventQueueState E)
    (l₁ l₂ : List (QAct E)) : runQ s (l₁ ++ l₂) = runQ (runQ s l₁) l₂ := by
  simp [runQ, List.foldl_append]

lemma queueInv_runQ {E : Type} (acts : List (QAct E))
    {s : EventQueueState E} (h : QueueInv s) : QueueInv (runQ s acts) := by
  induction acts generalizing s with
  | nil => exact h
  | cons a rest ih => exact ih (queueInv_stepQ a h)

/-! ### The overflow interleaving, step by step -/

lemma runQ_replicate_write (n : Nat) (hn : n ≤ 1024) :
    runQ (initQueue Nat) (List.replicate n (QAct.write 0)) = fillState n := by
  induction n with
  | zero => rfl
  | succ m ih =>
      have hm : m ≤ 1024 := Nat.le_of_succ_le hn
      have hlt : ¬ (m ≥ 1024) := by omega
      rw [List.replicate_succ', runQ_append, ih hm]
      show stepQ (fillState m) (QAct.write 0) = fillState (m + 1)
      have e1 : (0 :: List.replicate m (0 : Nat)) = List.replicate (m + 1) 0 :=
        (List.replicate_succ 0 m).symm
      have e2 : (List.replicate m (0 : Nat) ++ [0]) = List.replicate (m + 1) 0 :=
        (List.replicate_succ' m 0).symm
      have e3 : (List.replicate m CondVar.readVar ++ [CondVar.readVar])
          = List.replicate (m + 1) CondVar.readVar :=
        (List.replicate_succ' m CondVar.readVar).symm
      simp [stepQ, android_write_event, insertEvent, signalReadVar, fillState,
            hlt, e1, e2, e3]

lemma overflow_step1 : stepQ (fillState 1024) (QAct.write 1) = sOver1 := rfl

lemma overflow_step2 : stepQ sOver1 QAct.next = sOver2 := by
  have hq : sOver1.queue = List.replicate 1023 0 ++ [0] := by
    show List.replicate 1024 (0 : Nat) = _
    rw [← List.replicate_succ']
  have hne : stepQ sOver1 QAct.next = removeEvent sOver1 := rfl
  rw [hne, removeEvent_concat hq]
  exact rfl

lemma overflow_step3 : stepQ sOver2 (QAct.write 2) = sOver3 := rfl

/-! ### Characterization of `android_select` -/

lemma select_eq_of_pending {E : Type} (a : SelectArgs) (b : WaitBehavior E)
    (s : SelectState E) (h : s.numEvents ≠ 0) :
    android_select a b s = (1, s, []) := by
  unfold android_select
  rw [if_pos h]

lemma select_fst_of_empty {E : Type} (a : SelectArgs) (b : WaitBehavior E)
    (s : SelectState E) (h : s.numEvents = 0) :
    (android_select a b s).1 = fuseResult b.arrivals.length b.rc := by
  unfold android_select
  rw [if_neg (by omega)]
  simp [h]

lemma select_numEvents_of_empty {E : Type} (a : SelectArgs)
    (b : WaitBehavior E) (s : SelectState E) (h : s.numEvents = 0) :
    (android_select a b s).2.1.numEvents = b.arrivals.length := by
  unfold android_select
  rw [if_neg (by omega)]
  simp [h]

lemma fuseResult_cases (L : Nat) (k : Int) :
    (L ≠ 0 ∨ k ≥ 1 → fuseResult L k ≥ 1) ∧
      (fuseResult L k < 0 → L = 0 ∧ k < 0 ∧ fuseResult L k = k) ∧
      (fuseResult L k = 0 → L = 0 ∧ k = 0) := by
  simp only [fuseResult]
  split_ifs <;> omega

lemma fuseResult_zero (k : Int) : fuseResult 0 k = k := by
  simp only [fuseResult]
  split_ifs <;> omega

/-! ### Claim theorems -/

/-- C1, counterexample: the claim says that with `j = 2` events already
queued and a descriptor wait that would return `k = 0`, `wait()` returns
`max(j, 0) + k = 2`; but `android_select` called on a state with two
queued events returns 1 (line 415), not 2. -/
theorem select_with_two_pending_returns_one_not_two :
    (android_select argsW (⟨[], 0⟩ : WaitBehavior Nat) twoEventState).1 = 1 ∧
      (android_select argsW (⟨[], 0⟩ : WaitBehavior Nat) twoEventState).1
        ≠ 2 := by
  decide

/-- C1, amended: with `j > 0` events queued when `android_select` is
called, it returns 1 immediately and sends no signal to the select thread
(so the descriptor wait is not invoked and `k` is irrelevant); with
`j = 0` and no events arriving during the wait, it returns the raw
descriptor-wait result `k` — in particular the value `k ≥ 0`, and a
negative `k` verbatim. -/
theorem select_fusion_amended {E : Type} (a : SelectArgs)
    (b : WaitBehavior E) (s : SelectState E) :
    (s.numEvents ≠ 0 →
        (android_select a b s).1 = 1 ∧ (android_select a b s).2.2 = []) ∧
      (s.numEvents = 0 → b.arrivals = [] →
        (android_select a b s).1 = b.rc) := by
  constructor
  · intro h
    rw [select_eq_of_pending a b s h]
    exact ⟨rfl, rfl⟩
  · intro h ha
    rw [select_fst_of_empty a b s h, ha]
    exact fuseResult_zero b.rc

/-- Witness for C1's amended theorem at a concrete input: on an empty
queue with no arrivals and a descriptor-wait result of -7,
`android_select` returns -7. -/
theorem select_fusion_amended_witness :
    (android_select argsW (⟨[], -7⟩ : WaitBehavior Nat)
        emptySelectState).1 = -7 :=
  (select_fusion_amended argsW ⟨[], -7⟩ emptySelectState).2 rfl rfl

/-- C2: the value returned by `android_select` is ≥ 1 whenever at least
one event is queued in the final state or the stored `pselect` result is
≥ 1; it is negative only when no event is queued and the `pselect` result
is negative, and is then that result verbatim; and it is 0 only when no
event is queued and the `pselect` result is 0. -/
theorem select_return_value_sign {E : Type} (a : SelectArgs)
    (b : WaitBehavior E) (s : SelectState E) :
    ((android_select a b s).2.1.numEvents ≠ 0 ∨ b.rc ≥ 1 →
        (android_select a b s).1 ≥ 1) ∧
      ((android_select a b s).1 < 0 →
        (android_select a b s).2.1.numEvents = 0 ∧ b.rc < 0 ∧
          (android_select a b s).1 = b.rc) ∧
      ((android_select a b s).1 = 0 →
        (android_select a b s).2.1.numEvents = 0 ∧ b.rc = 0) := by
  by_cases h : s.numEvents = 0
  · rw [select_fst_of_empty a b s h, select_numEvents_of_empty a b s h]
    exact fuseResult_cases b.arrivals.length b.rc
  · rw [select_eq_of_pending a b s h]
    exact ⟨fun _ => le_refl 1,
           fun hc => absurd hc (by decide : ¬ ((1 : Int) < 0)),
           fun hc => absurd hc (by decide : ¬ ((1 : Int) = 0))⟩

/-- Witness for C2 at a concrete input: with one event arriving during
the wait and a `pselect` result of 2, `android_select` returns ≥ 1. -/
theorem select_return_value_sign_witness :
    (android_select argsW (⟨[5], 2⟩ : WaitBehavior Nat)
        emptySelectState).1 ≥ 1 :=
  (select_return_value_sign argsW ⟨[5], 2⟩ emptySelectState).1
    (Or.inl (by decide))

/-- C3: when `android_select` is called while `num_events` is nonzero, it
returns 1 immediately with the entire state unchanged and without sending
SIGUSR2 to the select thread — so the underlying `pselect` is never
invoked: the call only takes and releases the queue mutex
(lines 410-416). -/
theorem select_shortcircuits_on_pending_events {E : Type} (a : SelectArgs)
    (b : WaitBehavior E) (s : SelectState E) (h : s.numEvents ≠ 0) :
    android_select a b s = (1, s, []) :=
  select_eq_of_pending a b s h

/-- Witness for C3 at a concrete input: with two events queued,
`android_select` returns 1, leaves the state unchanged and sends no
signal. -/
theorem select_shortcircuits_on_pending_events_witness :
    twoEventState.numEvents ≠ 0 ∧
      android_select argsW (⟨[0], 5⟩ : WaitBehavior Nat) twoEventState
        = (1, twoEventState, []) :=
  ⟨by decide,
   select_shortcircuits_on_pending_events argsW ⟨[0], 5⟩ twoEventState
     (by decide)⟩

/-- C4 is a code bug: the claim (and the spec) say the capacity of 1024
is never exceeded, but because the full-queue wait at lines 389-391 is an
`if` rather than a `while`, a woken producer inserts without re-checking
`num_events`.  Along `overflowTrace` — 1024 enqueues, one producer
blocking on the full queue, one dequeue that wakes it, and a second
producer refilling the freed slot before the first resumes — the queue
reaches 1025 entries. -/
theorem queue_capacity_can_be_exceeded :
    (runQ (initQueue Nat) overflowTrace).numEvents = 1025 := by
  have hfill := runQ_replicate_write 1024 (by omega)
  simp only [overflowTrace]
  rw [runQ_append, hfill]
  have h4 : runQ (fillState 1024)
      [QAct.write 1, QAct.next, QAct.write 2, QAct.writerResume]
      = stepQ sOver3 QAct.writerResume := by
    show stepQ (stepQ (stepQ (stepQ (fillState 1024) (QAct.write 1))
        QAct.next) (QAct.write 2)) QAct.writerResume = _
    rw [overflow_step1, overflow_step2, overflow_step3]
  rw [h4]
  exact rfl

/-- C5: the event queue is strict FIFO.  After any interleaving of
enqueues and dequeues from the initial queue, the insertion history equals
the removal history followed by the still-queued events in oldest-first
order — so the removal order is exactly the insertion order, with no
reordering and no priority.  In particular, after enqueuing `0` then `1`,
two dequeues return `0` then `1`. -/
theorem event_queue_fifo :
    (∀ (E : Type) (acts : List (QAct E)),
        (runQ (initQueue E) acts).inserted =
          (runQ (initQueue E) acts).dequeued ++
            (runQ (initQueue E) acts).queue.reverse) ∧
      (runQ (initQueue Nat)
          [QAct.write 0, QAct.write 1, QAct.next, QAct.next]).dequeued
        = [0, 1] :=
  ⟨fun E acts => (queueInv_runQ acts (queueInv_initQueue E)).2, by decide⟩

/-- C6: in every state reachable from the initial empty queue by the
enqueue (`android_write_event`), dequeue (`android_next_event`) and
select-thread transitions, the `num_events` counter equals the number of
live nodes of the circular list: every successful insertion adds exactly
one node and increments the counter by one, and every removal drops
exactly one node and decrements it by one. -/
theorem num_events_counts_live_entries {E : Type} (acts : List (QAct E)) :
    (runQ (initQueue E) acts).numEvents
      = (runQ (initQueue E) acts).queue.length :=
  (queueInv_runQ acts (queueInv_initQueue E)).1

/-- C7: when the `malloc` at line 381 fails, `android_write_event`
returns at once (line 384), without blocking: the event is silently
dropped and the state is completely unchanged — no node is inserted,
`num_events` is untouched, and no condition variable is signalled (the
ghost `sigTrace` is unchanged). -/
theorem write_event_alloc_failure_is_silent_drop {E : Type} (e : E)
    (s : EventQueueState E) : android_write_event false e s = s := rfl

/-- C8: in the select-thread loop body, the store to
`android_pselect_rc` (line 253) comes strictly before the `sem_post`
(line 259), and the `sem_post` comes strictly before the acquisition of
`event_queue.mutex` (line 261) — and hence before the completion flag is
set (line 262) and `read_var` is signalled (line 263); the body contains
exactly one `sem_post`, so the post never happens after the mutex
acquisition. -/
theorem select_thread_posts_sem_before_queue_mutex :
    android_run_select_thread_body.indexOf ProxyStep.storeRc <
        android_run_select_thread_body.indexOf ProxyStep.semPost ∧
      android_run_select_thread_body.indexOf ProxyStep.semPost <
        android_run_select_thread_body.indexOf ProxyStep.lockQueueMutex ∧
      android_run_select_thread_body.indexOf ProxyStep.lockQueueMutex <
        android_run_select_thread_body.indexOf ProxyStep.setCompleted ∧
      android_run_select_thread_body.indexOf ProxyStep.setCompleted <
        android_run_select_thread_body.indexOf ProxyStep.signalReadVar ∧
      android_run_select_thread_body.count ProxyStep.semPost = 1 := by
  decide

/-- C9 is a code bug: the claim says the removed container is never the
sentinel, but along `sentinelRemovalTrace` — an armed descriptor wait, an
event enqueued and dequeued, a second `android_next_event` that sleeps on
`read_var`, and the select thread then signalling wait-completion
(line 263) — the consumer is woken with `num_events == 0` and proceeds to
remove `event_queue.events.last`, which is the sentinel: the `eassert` at
line 359 fires. -/
theorem next_event_can_remove_sentinel :
    (runQ (initQueue Nat) sentinelRemovalTrace).assertionFailed = true ∧
      (runQ (initQueue Nat) sentinelRemovalTrace).queue = [] := by
  decide

/-- C10: the early return of `android_select` (lines 412-416) is
effect-free apart from the queue mutex: when events are pending at entry,
every `android_pselect_*` request slot, the completion flag, the stored
result, the semaphore count, the queue contents and `num_events` are left
exactly as they were, and no signal is sent to the select thread. -/
theorem select_early_return_frame {E : Type} (a : SelectArgs)
    (b : WaitBehavior E) (s : SelectState E) (h : 0 < s.numEvents) :
    (android_select a b s).2.1.android_pselect_nfds
        = s.android_pselect_nfds ∧
      (android_select a b s).2.1.android_pselect_readfds
        = s.android_pselect_readfds ∧
      (android_select a b s).2.1.android_pselect_writefds
        = s.android_pselect_writefds ∧
      (android_select a b s).2.1.android_pselect_exceptfds
        = s.android_pselect_exceptfds ∧
      (android_select a b s).2.1.android_pselect_timeout
        = s.android_pselect_timeout ∧
      (android_select a b s).2.1.android_pselect_sigset
        = s.android_pselect_sigset ∧
      (android_select a b s).2.1.android_pselect_completed
        = s.android_pselect_completed ∧
      (android_select a b s).2.1.android_pselect_rc
        = s.android_pselect_rc ∧
      (android_select a b s).2.1.semCount = s.semCount ∧
      (android_select a b s).2.1.queue = s.queue ∧
      (android_select a b s).2.1.numEvents = s.numEvents ∧
      (android_select a b s).2.2 = [] := by
  rw [select_eq_of_pending a b s (by omega)]
  exact ⟨rfl, rfl, rfl, rfl, rfl, rfl, rfl, rfl, rfl, rfl, rfl, rfl⟩

/-- Witness for C10 at a concrete input: with two events pending, the
early return leaves every component of the state unchanged. -/
theorem select_early_return_frame_witness :
    (android_select argsW (⟨[7], 3⟩ : WaitBehavior Nat)
        twoEventState).2.1.numEvents = twoEventState.numEvents ∧
      (android_select argsW (⟨[7], 3⟩ : WaitBehavior Nat)
          twoEventState).2.2 = [] := by
  have h := select_early_return_frame argsW
    (⟨[7], 3⟩ : WaitBehavior Nat) twoEventState (by decide)
  exact ⟨h.2.2.2.2.2.2.2.2.2.2.1, h.2.2.2.2.2.2.2.2.2.2.2⟩

end AndroidEmacs
